import Mathlib

/-!
Shallow embedding of the bus-scan reconciliation logic of the `dali_center`
Home Assistant integration (`custom_components/dali_center/__init__.py`,
`types.py`, `const.py`), together with proofs of the specified properties.

The embedding models:
  * `Device` records (identified by `dev_id`, carrying a `name`),
  * the observable side effects of `_async_do_bus_scan` as an event trace
    (persistent notifications created/dismissed, dispatcher sends of the
    scan-state and add-entities signals, device-registry removals),
  * the in-place mutation of `entry.runtime_data.devices` as the returned
    device list,
  * the outcome of `gateway.scan_bus` as an explicit `ScanOutcome`
    (success with a result list, `TimeoutError`, or any other `Exception`),
  * `_remove_devices` (Python `list.remove` with `ValueError` suppressed,
    registry lookup-then-delete),
  * `_async_do_stop_scan`,
  * the field list of the `DaliCenterData` dataclass in `types.py` and the
    keyword arguments passed to its constructor by `async_setup_entry`.
-/

/-- A DALI device record, as far as reconciliation is concerned
(`dev_id` opaque stable identifier, `name` human-readable). -/
structure Device where
  dev_id : String
  name : String
deriving DecidableEq, Repr

/-- Outcome of awaiting `gateway.scan_bus(gateway.channel_total)`:
success with the returned sequence of device records, `TimeoutError`,
or any other `Exception` (both caught by `_async_do_bus_scan`). -/
inductive ScanOutcome where
  | ok (scan_result : List Device)
  | timeout
  | exc
deriving DecidableEq, Repr

/-- Observable side effect of the routines, in program order. -/
inductive Event where
  | notifyCreate (notification_id title message : String)
  | notifyDismiss (notification_id : String)
  | scanState (channel : String) (value : Bool)
  | addEntities (channel : String) (devices : List Device)
  | registryRemove (internal_id : String)
  | gatewayStopScan
deriving DecidableEq, Repr

/-- `DOMAIN` from `const.py`. -/
def DOMAIN : String := "dali_center"

/-- `SIGNAL_ADD_ENTITIES` from `const.py`. -/
def SIGNAL_ADD_ENTITIES : String := DOMAIN ++ "_add_entities"

/-- `SIGNAL_SCAN_STATE` from `const.py`. -/
def SIGNAL_SCAN_STATE : String := DOMAIN ++ "_scan_state"

/-- The per-entry scan-state dispatcher channel
`f"{SIGNAL_SCAN_STATE}_{entry.entry_id}"`. -/
def scanStateChannel (entry_id : String) : String :=
  SIGNAL_SCAN_STATE ++ "_" ++ entry_id

/-- The per-entry add-entities dispatcher channel
`f"{SIGNAL_ADD_ENTITIES}_{entry.entry_id}"`. -/
def addEntitiesChannel (entry_id : String) : String :=
  SIGNAL_ADD_ENTITIES ++ "_" ++ entry_id

/-- The deterministic notification id `f"{DOMAIN}_scan_{gw_sn}"` used by
both `_async_do_bus_scan` and `_async_do_stop_scan`. -/
def scanNotificationId (gw_sn : String) : String :=
  DOMAIN ++ "_scan_" ++ gw_sn

/-- Python set difference on id collections, as computed by
`scanned_ids - existing_ids` (a set is modelled as a duplicate-free list). -/
def listDiff (a b : List String) : List String :=
  a.filter (fun x => !b.contains x)

/-- The id set of a device list, `{dev.dev_id for dev in l}`:
duplicate-free, first occurrence order. -/
def devIds (l : List Device) : List String :=
  (l.map Device.dev_id).dedup

/-- `new_device_ids = scanned_ids - existing_ids`. -/
def newDeviceIds (existing scan_result : List Device) : List String :=
  listDiff (devIds scan_result) (devIds existing)

/-- `removed_device_ids = existing_ids - scanned_ids`. -/
def removedDeviceIds (existing scan_result : List Device) : List String :=
  listDiff (devIds existing) (devIds scan_result)

/-- `new_devices = [dev for dev in scan_result if dev.dev_id in new_device_ids]`. -/
def newDevices (existing scan_result : List Device) : List Device :=
  scan_result.filter (fun d => (newDeviceIds existing scan_result).contains d.dev_id)

/-- `removed_devices = [dev for dev in existing_devices if dev.dev_id in removed_device_ids]`. -/
def removedDevices (existing scan_result : List Device) : List Device :=
  existing.filter (fun d => (removedDeviceIds existing scan_result).contains d.dev_id)

/-- Python `list.remove(d)` with `ValueError` suppressed
(`contextlib.suppress(ValueError)`): drop the first element equal to `d`,
or leave the list unchanged when none is. -/
def removeFirst (l : List Device) (d : Device) : List Device :=
  match l with
  | [] => []
  | x :: xs => if x = d then xs else x :: removeFirst xs d

/-- The host device registry, mapping a `(DOMAIN, dev_id)` identifier to the
registry entry's internal id: modelled as an association list keyed by
`dev_id`. -/
def Registry := List (String × String)

/-- `dev_reg.async_get_device(identifiers={(DOMAIN, dev_id)})`. -/
def registryGetDevice (reg : Registry) (dev_id : String) : Option String :=
  (List.find? (fun p => p.1 == dev_id) reg).map Prod.snd

/-- `_remove_devices(hass, entry, removed_devices)`: for each removed device,
remove it from the in-memory list (suppressing "already absent") and, when the
registry has an entry for its identifier, remove that registry entry.
Returns the updated device list and the emitted registry-removal events. -/
def removeDevicesRun (reg : Registry) (devices : List Device)
    (removed : List Device) : List Device × List Event :=
  match removed with
  | [] => (devices, [])
  | d :: rest =>
    let devices1 := removeFirst devices d
    let evs := match registryGetDevice reg d.dev_id with
      | some internal_id => [Event.registryRemove internal_id]
      | none => []
    let (devices2, evs2) := removeDevicesRun reg devices1 rest
    (devices2, evs ++ evs2)

/-- Message of the "scanning" notification. -/
def scanningMessage : String :=
  "Scanning DALI bus. Light control may be temporarily unresponsive."

/-- Title of the "scanning" notification. -/
def scanningTitle (gw_sn : String) : String :=
  "DALI Center (" ++ gw_sn ++ "): Bus Scan"

/-- Message of the timeout notification. -/
def timeoutMessage : String :=
  "Bus scan timed out after 600 seconds. No changes were made."

/-- Title of the timeout notification. -/
def timeoutTitle (gw_sn : String) : String :=
  "DALI Center (" ++ gw_sn ++ "): Bus Scan Failed"

/-- Title of the completion notification. -/
def completeTitle (gw_sn : String) : String :=
  "DALI Center (" ++ gw_sn ++ "): Bus Scan Complete"

/-- Message of the completion notification:
`f"Scan complete: {added} added, {removed} removed, {unchanged} unchanged."`. -/
def completeMessage (added removed unchanged : Nat) : String :=
  "Scan complete: " ++ toString added ++ " added, " ++ toString removed ++
    " removed, " ++ toString unchanged ++ " unchanged."

/-- Shallow embedding of `_async_do_bus_scan(hass, entry)`.

Inputs: the gateway serial `gw_sn`, the config entry id `entry_id`, the host
device registry `reg`, the current `entry.runtime_data.devices` list
`existing`, and the outcome of the awaited `gateway.scan_bus` call.

Returns the device list after the call and the trace of observable side
effects in program order.  Note the `finally` block fires the
`scanState _ false` dispatch as soon as the `try` statement is left — on
success this is before the diff is applied, on failure right before the
`return`. -/
def busScan (gw_sn entry_id : String) (reg : Registry)
    (existing : List Device) (outcome : ScanOutcome) : List Device × List Event :=
  let nid := scanNotificationId gw_sn
  let startEvs : List Event :=
    [Event.notifyCreate nid (scanningTitle gw_sn) scanningMessage,
     Event.scanState (scanStateChannel entry_id) true]
  match outcome with
  | ScanOutcome.timeout =>
      (existing,
        startEvs ++
          [Event.notifyCreate nid (timeoutTitle gw_sn) timeoutMessage,
           Event.scanState (scanStateChannel entry_id) false])
  | ScanOutcome.exc =>
      (existing,
        startEvs ++
          [Event.notifyDismiss nid,
           Event.scanState (scanStateChannel entry_id) false])
  | ScanOutcome.ok scan_result =>
      let scanned_ids := devIds scan_result
      let new_device_ids := newDeviceIds existing scan_result
      let new_devs := newDevices existing scan_result
      let removed_devs := removedDevices existing scan_result
      let devices1 := if new_devs.isEmpty then existing else existing ++ new_devs
      let addEvs : List Event :=
        if new_devs.isEmpty then []
        else [Event.addEntities (addEntitiesChannel entry_id) new_devs]
      let removal :=
        if removed_devs.isEmpty then (devices1, ([] : List Event))
        else removeDevicesRun reg devices1 removed_devs
      let doneEv := Event.notifyCreate nid (completeTitle gw_sn)
        (completeMessage new_devs.length removed_devs.length
          (scanned_ids.length - new_device_ids.length))
      (removal.1,
        startEvs ++ [Event.scanState (scanStateChannel entry_id) false] ++
          addEvs ++ removal.2 ++ [doneEv])

/-- Shallow embedding of `_async_do_stop_scan(hass, entry)`: a no-op when
`gateway.bus_scanning` is false, otherwise `await gateway.stop_scan()`
followed by dismissing the deterministic scan notification. -/
def stopScan (bus_scanning : Bool) (gw_sn : String) : List Event :=
  if !bus_scanning then []
  else [Event.gatewayStopScan, Event.notifyDismiss (scanNotificationId gw_sn)]

/-- The fields declared by the `DaliCenterData` dataclass in `types.py`. -/
def daliCenterDataFields : List String := ["gateway"]

/-- The keyword arguments `async_setup_entry` passes to the `DaliCenterData`
constructor (`__init__.py` lines 167-172). -/
def asyncSetupEntryKwargs : List String :=
  ["gateway", "devices", "groups", "scenes"]

/-- A Python dataclass constructor accepts a keyword-argument list exactly
when every keyword names a declared field (otherwise `TypeError`). -/
def acceptsKwargs (fields kwargs : List String) : Bool :=
  kwargs.all (fun k => fields.contains k)

/-- The scan-state booleans dispatched on channel `ch`, in trace order. -/
def scanStatesOn (ch : String) (tr : List Event) : List Bool :=
  tr.filterMap (fun ev => match ev with
    | Event.scanState c b => if c = ch then some b else none
    | _ => none)

/-- The persistent notifications created in a trace, as
`(notification_id, title, message)` triples in trace order. -/
def creates (tr : List Event) : List (String × String × String) :=
  tr.filterMap (fun ev => match ev with
    | Event.notifyCreate i t m => some (i, t, m)
    | _ => none)

/-- The notification ids dismissed in a trace, in trace order. -/
def dismisses (tr : List Event) : List String :=
  tr.filterMap (fun ev => match ev with
    | Event.notifyDismiss i => some i
    | _ => none)

section Lemmas

theorem mem_listDiff {x : String} {a b : List String} :
    x ∈ listDiff a b ↔ x ∈ a ∧ x ∉ b := by
  simp [listDiff]

theorem mem_devIds {s : String} {l : List Device} :
    s ∈ devIds l ↔ ∃ d ∈ l, d.dev_id = s := by
  simp [devIds]

theorem mem_newDeviceIds {s : String} {existing scan_result : List Device} :
    s ∈ newDeviceIds existing scan_result ↔
      s ∈ devIds scan_result ∧ s ∉ devIds existing := by
  simp [newDeviceIds, mem_listDiff]

theorem mem_removedDeviceIds {s : String} {existing scan_result : List Device} :
    s ∈ removedDeviceIds existing scan_result ↔
      s ∈ devIds existing ∧ s ∉ devIds scan_result := by
  simp [removedDeviceIds, mem_listDiff]

theorem removeFirst_of_not_mem (l : List Device) (d : Device) (h : d ∉ l) :
    removeFirst l d = l := by
  induction l with
  | nil => rfl
  | cons x xs ih =>
    have hx : ¬ x = d := fun he => h (he ▸ List.mem_cons_self x xs)
    simp only [removeFirst, if_neg hx]
    rw [ih (fun hm => h (List.mem_cons_of_mem x hm))]

theorem removeFirst_append_right (l1 l2 : List Device) (d : Device)
    (h : ∀ y ∈ l2, y ≠ d) :
    removeFirst (l1 ++ l2) d = removeFirst l1 d ++ l2 := by
  induction l1 with
  | nil =>
    simp only [List.nil_append, removeFirst]
    exact removeFirst_of_not_mem l2 d (fun hm => h d hm rfl)
  | cons x xs ih =>
    by_cases hx : x = d
    · simp [removeFirst, hx]
    · simp [removeFirst, hx, ih]

/-- The device-list component of `removeDevicesRun` ignores the registry. -/
theorem removeDevicesRun_fst_cons (reg : Registry) (devices : List Device)
    (d : Device) (rest : List Device) :
    (removeDevicesRun reg devices (d :: rest)).1 =
      (removeDevicesRun reg (removeFirst devices d) rest).1 := by
  simp only [removeDevicesRun]

theorem removeDevicesRun_fst_cons_ne (reg : Registry) (x : Device)
    (xs rem : List Device) (h : ∀ d ∈ rem, d ≠ x) :
    (removeDevicesRun reg (x :: xs) rem).1 =
      x :: (removeDevicesRun reg xs rem).1 := by
  induction rem generalizing xs with
  | nil => rfl
  | cons d rest ih =>
    have hdx : ¬ x = d := fun he => h d (List.mem_cons_self d rest) he.symm
    rw [removeDevicesRun_fst_cons, removeDevicesRun_fst_cons]
    simp only [removeFirst, if_neg hdx]
    exact ih (removeFirst xs d) (fun e he => h e (List.mem_cons_of_mem d he))

theorem removeDevicesRun_fst_append (reg : Registry) (l1 l2 rem : List Device)
    (h : ∀ d ∈ rem, ∀ y ∈ l2, y ≠ d) :
    (removeDevicesRun reg (l1 ++ l2) rem).1 =
      (removeDevicesRun reg l1 rem).1 ++ l2 := by
  induction rem generalizing l1 with
  | nil => rfl
  | cons d rest ih =>
    rw [removeDevicesRun_fst_cons, removeDevicesRun_fst_cons,
      removeFirst_append_right l1 l2 d (h d (List.mem_cons_self d rest))]
    exact ih (removeFirst l1 d) (fun e he => h e (List.mem_cons_of_mem d he))

/-- Removing, in order, every element of `l.filter p` from `l` (first-match
removal) leaves exactly `l.filter (fun d => !p d)`. -/
theorem removeDevicesRun_filter (reg : Registry) (l : List Device)
    (p : Device → Bool) :
    (removeDevicesRun reg l (l.filter p)).1 = l.filter (fun d => !p d) := by
  induction l with
  | nil => rfl
  | cons x xs ih =>
    by_cases hx : p x
    · have h1 : removeFirst (x :: xs) x = xs := by simp [removeFirst]
      rw [List.filter_cons_of_pos hx, removeDevicesRun_fst_cons, h1, ih,
        List.filter_cons_of_neg (by simp [hx])]
    · rw [List.filter_cons_of_neg hx,
        removeDevicesRun_fst_cons_ne reg x xs (xs.filter p)
          (fun d hd he => hx (he ▸ (List.mem_filter.1 hd).2)),
        ih, List.filter_cons_of_pos (by simp [hx])]

theorem contains_eq_true_iff {l : List String} {a : String} :
    l.contains a = true ↔ a ∈ l := by simp

/-- No removed device is (equal to) a newly scanned device: their ids land on
opposite sides of the scanned-id set. -/
theorem removed_ne_new (existing scan_result : List Device) :
    ∀ d ∈ removedDevices existing scan_result,
      ∀ y ∈ newDevices existing scan_result, y ≠ d := by
  intro d hd y hy he
  have hd2 := (List.mem_filter.1 hd).2
  have hy2 := (List.mem_filter.1 hy).2
  have hdid : d.dev_id ∉ devIds scan_result :=
    (mem_removedDeviceIds.1 (contains_eq_true_iff.1 hd2)).2
  have hyid : y.dev_id ∈ devIds scan_result :=
    (mem_newDeviceIds.1 (contains_eq_true_iff.1 hy2)).1
  exact hdid (he ▸ hyid)

/-- Normal form of the device list after a successful reconciliation:
the prior list restricted to ids the scan still reports, followed by the
new records in scan order. -/
theorem busScan_ok_fst (gw_sn entry_id : String) (reg : Registry)
    (existing scan_result : List Device) :
    (busScan gw_sn entry_id reg existing (ScanOutcome.ok scan_result)).1 =
      existing.filter
          (fun d => !(removedDeviceIds existing scan_result).contains d.dev_id)
        ++ newDevices existing scan_result := by
  simp only [busScan]
  by_cases hrem : (removedDevices existing scan_result).isEmpty
  · rw [if_pos hrem]
    have hre : removedDevices existing scan_result = [] :=
      List.isEmpty_iff.1 hrem
    have hfe : existing.filter
        (fun d => !(removedDeviceIds existing scan_result).contains d.dev_id)
        = existing := by
      rw [List.filter_eq_self]
      intro a ha
      have : ∀ b ∈ existing,
          ¬ ((removedDeviceIds existing scan_result).contains b.dev_id = true) := by
        rw [← List.filter_eq_nil_iff]
        exact hre
      simp only [Bool.not_eq_true']
      exact Bool.not_eq_true _ ▸ (this a ha)
    by_cases hnew : (newDevices existing scan_result).isEmpty
    · rw [if_pos hnew]
      rw [List.isEmpty_iff.1 hnew, hfe, List.append_nil]
    · rw [if_neg hnew, hfe]
  · rw [if_neg hrem]
    by_cases hnew : (newDevices existing scan_result).isEmpty
    · rw [if_pos hnew]
      rw [List.isEmpty_iff.1 hnew, List.append_nil]
      exact removeDevicesRun_filter reg existing _
    · rw [if_neg hnew]
      rw [removeDevicesRun_fst_append reg existing
          (newDevices existing scan_result) (removedDevices existing scan_result)
          (fun d hd y hy => removed_ne_new existing scan_result d hd y hy)]
      have h3 : (removeDevicesRun reg existing
            (removedDevices existing scan_result)).1
          = existing.filter
              (fun d =>
                !(removedDeviceIds existing scan_result).contains d.dev_id) :=
        removeDevicesRun_filter reg existing _
      rw [h3]

/-- The devices kept from the prior list are exactly those whose id the scan
still reports. -/
theorem kept_filter_eq (existing scan_result : List Device) :
    existing.filter
        (fun d => !(removedDeviceIds existing scan_result).contains d.dev_id)
      = existing.filter (fun d => (devIds scan_result).contains d.dev_id) := by
  apply List.filter_congr
  intro d hd
  have hde : d.dev_id ∈ devIds existing := mem_devIds.2 ⟨d, hd, rfl⟩
  by_cases h : d.dev_id ∈ devIds scan_result
  · have h1 : (removedDeviceIds existing scan_result).contains d.dev_id = false := by
      rw [← Bool.not_eq_true, contains_eq_true_iff, mem_removedDeviceIds]
      exact fun hc => hc.2 h
    have h2 : (devIds scan_result).contains d.dev_id = true :=
      contains_eq_true_iff.2 h
    rw [h1, h2]
    rfl
  · have h1 : (removedDeviceIds existing scan_result).contains d.dev_id = true :=
      contains_eq_true_iff.2 (mem_removedDeviceIds.2 ⟨hde, h⟩)
    have h2 : (devIds scan_result).contains d.dev_id = false := by
      rw [← Bool.not_eq_true, contains_eq_true_iff]
      exact h
    rw [h1, h2]
    rfl

/-- The appended devices are exactly the scanned records whose id was not
previously present. -/
theorem newDevices_filter_eq (existing scan_result : List Device) :
    newDevices existing scan_result
      = scan_result.filter (fun d => !(devIds existing).contains d.dev_id) := by
  apply List.filter_congr
  intro d hd
  have hds : d.dev_id ∈ devIds scan_result := mem_devIds.2 ⟨d, hd, rfl⟩
  by_cases h : d.dev_id ∈ devIds existing
  · have h1 : (newDeviceIds existing scan_result).contains d.dev_id = false := by
      rw [← Bool.not_eq_true, contains_eq_true_iff, mem_newDeviceIds]
      exact fun hc => hc.2 h
    have h2 : (devIds existing).contains d.dev_id = true :=
      contains_eq_true_iff.2 h
    rw [h1, h2]
    rfl
  · have h1 : (newDeviceIds existing scan_result).contains d.dev_id = true :=
      contains_eq_true_iff.2 (mem_newDeviceIds.2 ⟨hds, h⟩)
    have h2 : (devIds existing).contains d.dev_id = false := by
      rw [← Bool.not_eq_true, contains_eq_true_iff]
      exact h
    rw [h1, h2]
    rfl

/-- After a successful reconciliation the id set of the device list equals
the id set of the scan result. -/
theorem busScan_ok_devIds (gw_sn entry_id : String) (reg : Registry)
    (existing scan_result : List Device) (s : String) :
    s ∈ devIds (busScan gw_sn entry_id reg existing
        (ScanOutcome.ok scan_result)).1 ↔ s ∈ devIds scan_result := by
  rw [busScan_ok_fst, kept_filter_eq, newDevices_filter_eq]
  constructor
  · intro hs
    rcases mem_devIds.1 hs with ⟨d, hd, hid⟩
    rcases List.mem_append.1 hd with h | h
    · rcases List.mem_filter.1 h with ⟨_, hq⟩
      exact hid ▸ contains_eq_true_iff.1 hq
    · exact mem_devIds.2 ⟨d, (List.mem_filter.1 h).1, hid⟩
  · intro hs
    rcases mem_devIds.1 hs with ⟨r, hr, hid⟩
    by_cases h : s ∈ devIds existing
    · rcases mem_devIds.1 h with ⟨d, hd, hdid⟩
      refine mem_devIds.2 ⟨d, List.mem_append.2 (Or.inl ?_), hdid⟩
      exact List.mem_filter.2 ⟨hd, contains_eq_true_iff.2 (hdid ▸ hs)⟩
    · refine mem_devIds.2 ⟨r, List.mem_append.2 (Or.inr ?_), hid⟩
      refine List.mem_filter.2 ⟨hr, ?_⟩
      rw [Bool.not_eq_true']
      rw [← Bool.not_eq_true, contains_eq_true_iff]
      exact hid ▸ h

/-- `_remove_devices` emits only registry-removal events. -/
theorem removeDevicesRun_events (reg : Registry) (devices removed : List Device) :
    ∀ ev ∈ (removeDevicesRun reg devices removed).2,
      ∃ i, ev = Event.registryRemove i := by
  induction removed generalizing devices with
  | nil => intro ev hev; cases hev
  | cons d rest ih =>
    intro ev hev
    simp only [removeDevicesRun] at hev
    rcases hg : registryGetDevice reg d.dev_id with _ | i <;> rw [hg] at hev
    · exact ih (removeFirst devices d) ev (by simpa using hev)
    · rcases List.mem_append.1 hev with h | h
      · rcases List.mem_singleton.1 h with rfl
        exact ⟨i, rfl⟩
      · exact ih (removeFirst devices d) ev h

/-- Scan-state dispatches of a reconciliation run, any outcome:
one `true` at entry, one `false` on leaving the `try`. -/
theorem scanStatesOn_busScan (gw_sn entry_id : String) (reg : Registry)
    (existing : List Device) (outcome : ScanOutcome) :
    scanStatesOn (scanStateChannel entry_id)
      (busScan gw_sn entry_id reg existing outcome).2 = [true, false] := by
  cases outcome with
  | timeout => simp [busScan, scanStatesOn]
  | exc => simp [busScan, scanStatesOn]
  | ok scan_result =>
    by_cases hnew : (newDevices existing scan_result).isEmpty <;>
      by_cases hrem : (removedDevices existing scan_result).isEmpty <;>
      simp [busScan, scanStatesOn, hnew, hrem, List.filterMap_append] <;>
      (intro a ha; rcases removeDevicesRun_events _ _ _ a ha with ⟨i, hi⟩; simp [hi])

/-- Notifications created by a successful reconciliation run: the "scanning"
notification and the completion summary, both under the deterministic id. -/
theorem creates_busScan_ok (gw_sn entry_id : String) (reg : Registry)
    (existing scan_result : List Device) :
    creates (busScan gw_sn entry_id reg existing
        (ScanOutcome.ok scan_result)).2 =
      [(scanNotificationId gw_sn, scanningTitle gw_sn, scanningMessage),
       (scanNotificationId gw_sn, completeTitle gw_sn,
        completeMessage (newDevices existing scan_result).length
          (removedDevices existing scan_result).length
          ((devIds scan_result).length -
            (newDeviceIds existing scan_result).length))] := by
  by_cases hnew : (newDevices existing scan_result).isEmpty <;>
    by_cases hrem : (removedDevices existing scan_result).isEmpty <;>
    simp [busScan, creates, hnew, hrem, List.filterMap_append] <;>
    (intro a ha; rcases removeDevicesRun_events _ _ _ a ha with ⟨i, hi⟩; simp [hi])

/-- Notifications created on the timeout path. -/
theorem creates_busScan_timeout (gw_sn entry_id : String) (reg : Registry)
    (existing : List Device) :
    creates (busScan gw_sn entry_id reg existing ScanOutcome.timeout).2 =
      [(scanNotificationId gw_sn, scanningTitle gw_sn, scanningMessage),
       (scanNotificationId gw_sn, timeoutTitle gw_sn, timeoutMessage)] := by
  simp [busScan, creates]

/-- Notifications created on the generic-exception path: only the initial
"scanning" one. -/
theorem creates_busScan_exc (gw_sn entry_id : String) (reg : Registry)
    (existing : List Device) :
    creates (busScan gw_sn entry_id reg existing ScanOutcome.exc).2 =
      [(scanNotificationId gw_sn, scanningTitle gw_sn, scanningMessage)] := by
  simp [busScan, creates]

/-- Notifications dismissed by a reconciliation run: none on success. -/
theorem dismisses_busScan_ok (gw_sn entry_id : String) (reg : Registry)
    (existing scan_result : List Device) :
    dismisses (busScan gw_sn entry_id reg existing
        (ScanOutcome.ok scan_result)).2 = [] := by
  by_cases hnew : (newDevices existing scan_result).isEmpty <;>
    by_cases hrem : (removedDevices existing scan_result).isEmpty <;>
    simp [busScan, dismisses, hnew, hrem, List.filterMap_append] <;>
    (intro a ha; rcases removeDevicesRun_events _ _ _ a ha with ⟨i, hi⟩; simp [hi])

/-- Notifications dismissed on the timeout path: none. -/
theorem dismisses_busScan_timeout (gw_sn entry_id : String) (reg : Registry)
    (existing : List Device) :
    dismisses (busScan gw_sn entry_id reg existing ScanOutcome.timeout).2
      = [] := by
  simp [busScan, dismisses]

/-- Notifications dismissed on the generic-exception path: exactly the
in-progress one. -/
theorem dismisses_busScan_exc (gw_sn entry_id : String) (reg : Registry)
    (existing : List Device) :
    dismisses (busScan gw_sn entry_id reg existing ScanOutcome.exc).2 =
      [scanNotificationId gw_sn] := by
  simp [busScan, dismisses]

/-- Filtering keeps the per-id record count intact when every record with
the given id passes the filter. -/
theorem count_map_filter_id (l : List Device) (p : Device → Bool) (s : String)
    (h : ∀ d ∈ l, d.dev_id = s → p d = true) :
    ((l.filter p).map Device.dev_id).count s
      = (l.map Device.dev_id).count s := by
  induction l with
  | nil => rfl
  | cons x xs ih =>
    have ih2 := ih (fun d hd => h d (List.mem_cons_of_mem x hd))
    by_cases hp : p x
    · rw [List.filter_cons_of_pos hp]
      simp [List.count_cons, ih2]
    · have hxs : ¬ (x.dev_id = s) :=
        fun he => hp (h x (List.mem_cons_self x xs) he)
      rw [List.filter_cons_of_neg hp]
      simp [List.count_cons, ih2, hxs]

/-- For an id the prior list does not carry, every scanned record with that
id survives into the reconciled list: per-id record counts are preserved. -/
theorem busScan_ok_count (gw_sn entry_id : String) (reg : Registry)
    (existing scan_result : List Device) (s : String)
    (hne : s ∉ devIds existing) :
    (((busScan gw_sn entry_id reg existing
          (ScanOutcome.ok scan_result)).1).map Device.dev_id).count s
      = (scan_result.map Device.dev_id).count s := by
  rw [busScan_ok_fst, List.map_append, List.count_append]
  have hkept : ((existing.filter
      (fun d => !(removedDeviceIds existing scan_result).contains d.dev_id)).map
        Device.dev_id).count s = 0 := by
    rw [List.count_eq_zero]
    intro hmem
    rcases List.mem_map.1 hmem with ⟨d, hd, hid⟩
    exact hne (mem_devIds.2 ⟨d, (List.mem_filter.1 hd).1, hid⟩)
  have hnewc : (((newDevices existing scan_result)).map Device.dev_id).count s
      = (scan_result.map Device.dev_id).count s := by
    apply count_map_filter_id
    intro d hd hid
    apply contains_eq_true_iff.2
    rw [hid]
    exact mem_newDeviceIds.2 ⟨mem_devIds.2 ⟨d, hd, hid⟩, hne⟩
  rw [hkept, hnewc, Nat.zero_add]

/-- With a duplicated previously-unknown id in the scan result, strictly
more records are appended than there are distinct new ids. -/
theorem newDevices_length_gt (existing scan_result : List Device) (s : String)
    (h2 : 2 ≤ ((scan_result.map Device.dev_id).count s))
    (hne : s ∉ devIds existing) :
    (newDeviceIds existing scan_result).length
      < (newDevices existing scan_result).length := by
  have hs_mem : s ∈ devIds scan_result := by
    have hpos : 0 < (scan_result.map Device.dev_id).count s := by omega
    exact List.mem_dedup.2 (List.count_pos_iff.1 hpos)
  have hcount : (((newDevices existing scan_result)).map Device.dev_id).count s
      = (scan_result.map Device.dev_id).count s := by
    apply count_map_filter_id
    intro d hd hid
    apply contains_eq_true_iff.2
    rw [hid]
    exact mem_newDeviceIds.2 ⟨hs_mem, hne⟩
  have hnotnodup :
      ¬ ((newDevices existing scan_result).map Device.dev_id).Nodup := by
    intro hn
    have := List.nodup_iff_count_le_one.1 hn s
    omega
  have hsub := List.dedup_sublist
    ((newDevices existing scan_result).map Device.dev_id)
  have hle := hsub.length_le
  have hlne : ((newDevices existing scan_result).map Device.dev_id).dedup.length
      ≠ ((newDevices existing scan_result).map Device.dev_id).length := by
    intro he
    exact hnotnodup (hsub.eq_of_length he ▸ List.nodup_dedup _)
  have hnodup_new : (newDeviceIds existing scan_result).Nodup := by
    simp only [newDeviceIds, listDiff]
    exact (List.nodup_dedup _).filter _
  have hlen_eq : (newDeviceIds existing scan_result).length
      = ((newDevices existing scan_result).map Device.dev_id).dedup.length := by
    refine List.Perm.length_eq
      ((List.perm_ext_iff_of_nodup hnodup_new (List.nodup_dedup _)).2 ?_)
    intro a
    rw [List.mem_dedup]
    constructor
    · intro ha
      rcases mem_newDeviceIds.1 ha with ⟨haS, _⟩
      rcases mem_devIds.1 haS with ⟨r, hr, hrid⟩
      refine List.mem_map.2 ⟨r, ?_, hrid⟩
      refine List.mem_filter.2 ⟨hr, contains_eq_true_iff.2 ?_⟩
      rw [hrid]
      exact ha
    · intro ha
      rcases List.mem_map.1 ha with ⟨r, hr, hrid⟩
      exact hrid ▸ contains_eq_true_iff.1 (List.mem_filter.1 hr).2
  have hml : ((newDevices existing scan_result).map Device.dev_id).length
      = (newDevices existing scan_result).length := List.length_map _ _
  omega

/-- There are no more distinct new ids than distinct scanned ids. -/
theorem newDeviceIds_length_le (existing scan_result : List Device) :
    (newDeviceIds existing scan_result).length ≤ (devIds scan_result).length := by
  simp only [newDeviceIds, listDiff]
  exact List.length_filter_le _ _

end Lemmas

section Claims

/-- C1: after a successful reconciliation run the device collection equals
the prior collection in its prior order — with records whose `dev_id` the
scan no longer reports removed — followed, in scan-result order, by exactly
those scanned records whose `dev_id` was not previously present; hence its
membership by `dev_id` equals exactly the `dev_id` set of the scan result. -/
theorem reconciliation_result_matches_scan (gw_sn entry_id : String)
    (reg : Registry) (existing scan_result : List Device) :
    ((busScan gw_sn entry_id reg existing (ScanOutcome.ok scan_result)).1
      = existing.filter (fun d => (devIds scan_result).contains d.dev_id)
        ++ scan_result.filter (fun d => !(devIds existing).contains d.dev_id))
    ∧ (∀ s, s ∈ devIds (busScan gw_sn entry_id reg existing
        (ScanOutcome.ok scan_result)).1 ↔ s ∈ devIds scan_result) := by
  constructor
  · rw [busScan_ok_fst, kept_filter_eq, newDevices_filter_eq]
  · exact fun s => busScan_ok_devIds gw_sn entry_id reg existing scan_result s

/-- C2: the diff computed by the reconciliation routine satisfies
`new = scanned − existing`, `removed = existing − scanned`,
`new ∩ removed = ∅`, and `(existing − removed) ∪ new = scanned` as sets. -/
theorem scan_diff_partition (existing scan_result : List Device) :
    (∀ x, x ∈ newDeviceIds existing scan_result ↔
        (x ∈ devIds scan_result ∧ x ∉ devIds existing))
    ∧ (∀ x, x ∈ removedDeviceIds existing scan_result ↔
        (x ∈ devIds existing ∧ x ∉ devIds scan_result))
    ∧ (∀ x, ¬ (x ∈ newDeviceIds existing scan_result ∧
        x ∈ removedDeviceIds existing scan_result))
    ∧ (∀ x, ((x ∈ devIds existing ∧
          x ∉ removedDeviceIds existing scan_result)
        ∨ x ∈ newDeviceIds existing scan_result) ↔
        x ∈ devIds scan_result) := by
  refine ⟨fun x => mem_newDeviceIds, fun x => mem_removedDeviceIds,
    fun x hx => ?_, fun x => ?_⟩
  · exact (mem_newDeviceIds.1 hx.1).2 (mem_removedDeviceIds.1 hx.2).1
  · rw [mem_removedDeviceIds, mem_newDeviceIds]
    by_cases h1 : x ∈ devIds existing <;>
      by_cases h2 : x ∈ devIds scan_result <;> tauto

/-- C3: on the timeout path and on the generic-exception path the routine
returns with the device collection identical to before the call — same list,
hence same length and same identity set — and (modelled by both failure
constructors being handled) no exception propagates. -/
theorem no_mutation_on_failure (gw_sn entry_id : String) (reg : Registry)
    (existing : List Device) :
    ((busScan gw_sn entry_id reg existing ScanOutcome.timeout).1 = existing)
    ∧ ((busScan gw_sn entry_id reg existing ScanOutcome.exc).1 = existing)
    ∧ ((busScan gw_sn entry_id reg existing ScanOutcome.timeout).1.length
        = existing.length)
    ∧ ((busScan gw_sn entry_id reg existing ScanOutcome.exc).1.length
        = existing.length)
    ∧ (∀ s, s ∈ devIds
          (busScan gw_sn entry_id reg existing ScanOutcome.timeout).1 ↔
        s ∈ devIds existing)
    ∧ (∀ s, s ∈ devIds
          (busScan gw_sn entry_id reg existing ScanOutcome.exc).1 ↔
        s ∈ devIds existing) :=
  ⟨rfl, rfl, rfl, rfl, fun _ => Iff.rfl, fun _ => Iff.rfl⟩

/-- C5: for every reconciliation invocation — success, timeout, or any other
exception — the scan-state broadcasts on the per-entry channel are exactly
`[true, false]` in that order. -/
theorem scan_state_signal_pairs (gw_sn entry_id : String) (reg : Registry)
    (existing : List Device) (outcome : ScanOutcome) :
    scanStatesOn (scanStateChannel entry_id)
      (busScan gw_sn entry_id reg existing outcome).2 = [true, false] :=
  scanStatesOn_busScan gw_sn entry_id reg existing outcome

/-- C4 counterexample: at the concrete input where the scan raises a
non-timeout exception, the whole run creates exactly one notification — the
initial "scanning" one — so the terminal state produces zero additional
summary notifications, not exactly one as claimed. -/
theorem exc_path_creates_no_summary :
    (creates (busScan "gwsn" "entry" ([] : Registry) []
        ScanOutcome.exc).2).length = 1
    ∧ (creates (busScan "gwsn" "entry" ([] : Registry) []
        ScanOutcome.exc).2).length ≠ 2 := by
  constructor <;> simp [creates_busScan_exc]

/-- C4 amended: success and timeout each produce exactly one summary
notification in addition to the initial "scanning" one (two creations in
total, no dismissal); any other failure produces no additional notification
and instead dismisses the in-progress one (one creation, one dismissal of
the deterministic id). -/
theorem terminal_notifications_per_outcome (gw_sn entry_id : String)
    (reg : Registry) (existing scan_result : List Device) :
    ((creates (busScan gw_sn entry_id reg existing
        (ScanOutcome.ok scan_result)).2).length = 2)
    ∧ ((creates (busScan gw_sn entry_id reg existing
        ScanOutcome.timeout).2).length = 2)
    ∧ ((creates (busScan gw_sn entry_id reg existing
        ScanOutcome.exc).2).length = 1)
    ∧ (dismisses (busScan gw_sn entry_id reg existing
        (ScanOutcome.ok scan_result)).2 = [])
    ∧ (dismisses (busScan gw_sn entry_id reg existing
        ScanOutcome.timeout).2 = [])
    ∧ (dismisses (busScan gw_sn entry_id reg existing
        ScanOutcome.exc).2 = [scanNotificationId gw_sn]) := by
  refine ⟨?_, ?_, ?_, ?_, ?_, ?_⟩
  · rw [creates_busScan_ok]; rfl
  · rw [creates_busScan_timeout]; rfl
  · rw [creates_busScan_exc]; rfl
  · exact dismisses_busScan_ok gw_sn entry_id reg existing scan_result
  · exact dismisses_busScan_timeout gw_sn entry_id reg existing
  · exact dismisses_busScan_exc gw_sn entry_id reg existing

/-- C8: the stop-scan routine is a no-op when the gateway reports no scan in
progress (no stop call, no dismissal); otherwise it invokes the gateway stop
operation and dismisses the deterministic scan notification; and in neither
case does it broadcast the scan-state signal itself. -/
theorem stop_scan_contract (gw_sn : String) :
    (stopScan false gw_sn = [])
    ∧ (stopScan true gw_sn
        = [Event.gatewayStopScan,
           Event.notifyDismiss (scanNotificationId gw_sn)])
    ∧ (∀ b ch, scanStatesOn ch (stopScan b gw_sn) = []) := by
  refine ⟨rfl, rfl, fun b ch => ?_⟩
  cases b <;> simp [stopScan, scanStatesOn]

/-- C6 (code bug): `async_setup_entry` constructs `DaliCenterData` with the
keyword arguments `gateway`, `devices`, `groups`, `scenes`, but the
dataclass in `types.py` declares only the field `gateway`, so the
constructor call raises `TypeError` instead of succeeding. -/
theorem daliCenterData_rejects_setup_kwargs :
    acceptsKwargs daliCenterDataFields asyncSetupEntryKwargs = false := by
  decide

/-- C7: the success path creates exactly the "scanning" notification and a
completion notification reporting added = number of new device records,
removed = number of removed device records, unchanged =
`len(scanned_ids) − len(new_device_ids)`; every notification is keyed by the
deterministic id `"{domain}_scan_{gateway_id}"`, so a second invocation for
the same gateway reuses the same id and replaces rather than duplicates; on
existing `{A, B}` and scan result `{A, C}` the summary reads
"1 added, 1 removed, 1 unchanged". -/
theorem completion_notification_counts_and_id (gw_sn entry_id : String)
    (reg : Registry) (existing scan_result : List Device) :
    (creates (busScan gw_sn entry_id reg existing
        (ScanOutcome.ok scan_result)).2
      = [(scanNotificationId gw_sn, scanningTitle gw_sn, scanningMessage),
         (scanNotificationId gw_sn, completeTitle gw_sn,
          completeMessage (newDevices existing scan_result).length
            (removedDevices existing scan_result).length
            ((devIds scan_result).length -
              (newDeviceIds existing scan_result).length))])
    ∧ (∀ pr ∈ creates (busScan gw_sn entry_id reg existing
        (ScanOutcome.ok scan_result)).2, pr.1 = scanNotificationId gw_sn)
    ∧ (scanNotificationId gw_sn = DOMAIN ++ "_scan_" ++ gw_sn)
    ∧ ((creates (busScan "gwsn" "entry" ([] : Registry)
          [⟨"A", "Light A"⟩, ⟨"B", "Light B"⟩]
          (ScanOutcome.ok [⟨"A", "Light A"⟩, ⟨"C", "Light C"⟩])).2).map
            (fun pr => pr.2.2)
        = [scanningMessage,
           "Scan complete: 1 added, 1 removed, 1 unchanged."]) := by
  refine ⟨creates_busScan_ok gw_sn entry_id reg existing scan_result,
    ?_, rfl, ?_⟩
  · intro pr hpr
    rw [creates_busScan_ok] at hpr
    simp only [List.mem_cons, List.not_mem_nil, or_false] at hpr
    rcases hpr with rfl | rfl <;> rfl
  · rw [creates_busScan_ok]
    decide

/-- C9: the removal step is idempotent and registry-lenient — removing a
device that is already absent from the in-memory collection does not raise
and leaves the collection unchanged, and when the registry has no entry for
the device's identifier no registry removal is performed. -/
theorem remove_devices_idempotent (reg : Registry) (devices : List Device)
    (d : Device) (h1 : d ∉ devices)
    (h2 : registryGetDevice reg d.dev_id = none) :
    removeDevicesRun reg devices [d] = (devices, []) := by
  simp [removeDevicesRun, h2, removeFirst_of_not_mem devices d h1]

/-- Witness for C9 at a concrete input: removing `x` from `[a]` with an
empty registry changes nothing and emits nothing. -/
theorem remove_devices_idempotent_witness :
    ((⟨"x", "Light X"⟩ : Device) ∉ ([⟨"a", "Light A"⟩] : List Device))
    ∧ (registryGetDevice ([] : Registry) (Device.dev_id ⟨"x", "Light X"⟩)
        = none)
    ∧ (removeDevicesRun ([] : Registry) [⟨"a", "Light A"⟩] [⟨"x", "Light X"⟩]
        = ([⟨"a", "Light A"⟩], [])) :=
  ⟨by decide, by decide,
    remove_devices_idempotent ([] : Registry) [⟨"a", "Light A"⟩]
      ⟨"x", "Light X"⟩ (by decide) (by decide)⟩

/-- C10: when the scan result carries two or more records with the same
previously-unknown `dev_id`, every such record is appended (per-id record
counts are preserved, so the collection can hold duplicate `dev_id`
entries), the completion notification's added count is the number of
appended records while its unchanged count uses the number of distinct new
ids, and added + unchanged strictly exceeds the number of distinct scanned
ids. -/
theorem duplicate_new_records_all_appended (gw_sn entry_id : String)
    (reg : Registry) (existing scan_result : List Device) (s : String)
    (h2 : 2 ≤ ((scan_result.map Device.dev_id).count s))
    (hne : s ∉ devIds existing) :
    ((((busScan gw_sn entry_id reg existing
          (ScanOutcome.ok scan_result)).1).map Device.dev_id).count s
        = (scan_result.map Device.dev_id).count s)
    ∧ (2 ≤ (((busScan gw_sn entry_id reg existing
          (ScanOutcome.ok scan_result)).1).map Device.dev_id).count s)
    ∧ (creates (busScan gw_sn entry_id reg existing
          (ScanOutcome.ok scan_result)).2
        = [(scanNotificationId gw_sn, scanningTitle gw_sn, scanningMessage),
           (scanNotificationId gw_sn, completeTitle gw_sn,
            completeMessage (newDevices existing scan_result).length
              (removedDevices existing scan_result).length
              ((devIds scan_result).length -
                (newDeviceIds existing scan_result).length))])
    ∧ ((devIds scan_result).length
        < (newDevices existing scan_result).length
          + ((devIds scan_result).length
            - (newDeviceIds existing scan_result).length)) := by
  have hc := busScan_ok_count gw_sn entry_id reg existing scan_result s hne
  have hgt := newDevices_length_gt existing scan_result s h2 hne
  have hle := newDeviceIds_length_le existing scan_result
  exact ⟨hc, by omega,
    creates_busScan_ok gw_sn entry_id reg existing scan_result, by omega⟩

/-- Witness for C10 at a concrete input: an empty prior list and a scan
result carrying two records with the same unknown id `x`. -/
theorem duplicate_new_records_witness :
    (2 ≤ ((([⟨"x", "Light 1"⟩, ⟨"x", "Light 2"⟩] : List Device).map
        Device.dev_id).count "x"))
    ∧ ("x" ∉ devIds ([] : List Device))
    ∧ (((((busScan "gwsn" "entry" ([] : Registry) []
          (ScanOutcome.ok [⟨"x", "Light 1"⟩, ⟨"x", "Light 2"⟩])).1).map
            Device.dev_id).count "x"
        = (([⟨"x", "Light 1"⟩, ⟨"x", "Light 2"⟩] : List Device).map
            Device.dev_id).count "x")
      ∧ (2 ≤ (((busScan "gwsn" "entry" ([] : Registry) []
            (ScanOutcome.ok [⟨"x", "Light 1"⟩, ⟨"x", "Light 2"⟩])).1).map
              Device.dev_id).count "x")
      ∧ (creates (busScan "gwsn" "entry" ([] : Registry) []
            (ScanOutcome.ok [⟨"x", "Light 1"⟩, ⟨"x", "Light 2"⟩])).2
          = [(scanNotificationId "gwsn", scanningTitle "gwsn",
              scanningMessage),
             (scanNotificationId "gwsn", completeTitle "gwsn",
              completeMessage
                (newDevices [] [⟨"x", "Light 1"⟩, ⟨"x", "Light 2"⟩]).length
                (removedDevices [] [⟨"x", "Light 1"⟩, ⟨"x", "Light 2"⟩]).length
                ((devIds [⟨"x", "Light 1"⟩, ⟨"x", "Light 2"⟩]).length -
                  (newDeviceIds []
                    [⟨"x", "Light 1"⟩, ⟨"x", "Light 2"⟩]).length))])
      ∧ ((devIds [⟨"x", "Light 1"⟩, ⟨"x", "Light 2"⟩]).length
          < (newDevices [] [⟨"x", "Light 1"⟩, ⟨"x", "Light 2"⟩]).length
            + ((devIds [⟨"x", "Light 1"⟩, ⟨"x", "Light 2"⟩]).length
              - (newDeviceIds []
                  [⟨"x", "Light 1"⟩, ⟨"x", "Light 2"⟩]).length))) :=
  ⟨by decide, by decide,
    duplicate_new_records_all_appended "gwsn" "entry" ([] : Registry) []
      [⟨"x", "Light 1"⟩, ⟨"x", "Light 2"⟩] "x" (by decide) (by decide)⟩

end Claims
